import Mathlib

/-!
Verification of the drum-kit recommendation core (kits.py).

The repository's only algorithmic component is a pure scoring function
over a fixed catalog of drum-kit records, plus a ranking function that
stably sorts the catalog by descending score and returns the first k
items.  This file embeds the data model and both functions and proves
the specified properties about them.
-/

/-- Catalog entry, mirroring the frozen dataclass DrumKit of kits.py.
Prices are Python ints, embedded as Int. -/
structure DrumKit where
  id : String
  name : String
  kit_type : String
  price_min : Int
  price_max : Int
  space : String
  genres : List String
  skill : String
  notes : String
deriving DecidableEq, Repr

/-- One request's preferences.  In kits.py this is a dict with keys
kit_type, budget, space, skill, genre, quiet_priority; the budget is a
Python int and quiet_priority a bool. -/
structure Prefs where
  kit_type : String
  budget : Int
  space : String
  skill : String
  genre : String
  quiet_priority : Bool
deriving DecidableEq, Repr

/-- The fixed in-memory catalog KITS of kits.py. -/
def KITS : List DrumKit := [
  { id := "roland-td-17kvx2",
    name := "Roland TD-17KVX2",
    kit_type := "electronic",
    price_min := 1700,
    price_max := 2300,
    space := "apartment",
    genres := ["rock", "metal", "pop", "funk", "jazz"],
    skill := "intermediate",
    notes := "Solid pads, good module, quiet enough for most apartments with a mat." },
  { id := "alesis-nitro-max",
    name := "Alesis Nitro Max",
    kit_type := "electronic",
    price_min := 300,
    price_max := 450,
    space := "apartment",
    genres := ["rock", "pop", "hiphop", "edm"],
    skill := "beginner",
    notes := "Budget-friendly starter kit, expect compromises in feel/durability." },
  { id := "yamaha-dtx6k2-x",
    name := "Yamaha DTX6K2-X",
    kit_type := "electronic",
    price_min := 900,
    price_max := 1300,
    space := "apartment",
    genres := ["rock", "pop", "funk", "jazz"],
    skill := "intermediate",
    notes := "Strong sounds and training features; pad feel is preference-dependent." },
  { id := "yamaha-stage-custom-birch",
    name := "Yamaha Stage Custom Birch",
    kit_type := "acoustic",
    price_min := 750,
    price_max := 1100,
    space := "house",
    genres := ["rock", "pop", "funk", "jazz", "country"],
    skill := "beginner",
    notes := "Reliable entry acoustic kit; cymbals/hardware may be extra depending on bundle." },
  { id := "tama-imperialstar",
    name := "Tama Imperialstar",
    kit_type := "acoustic",
    price_min := 700,
    price_max := 1100,
    space := "house",
    genres := ["rock", "metal", "pop"],
    skill := "beginner",
    notes := "Often sold as complete packages; good value, not subtle." },
  { id := "gretsch-catalina-club",
    name := "Gretsch Catalina Club",
    kit_type := "acoustic",
    price_min := 800,
    price_max := 1200,
    space := "house",
    genres := ["jazz", "funk", "pop", "rock"],
    skill := "intermediate",
    notes := "Smaller shells, easier in tight spaces, still loud like any acoustic kit." }
]

/-- score_kit of kits.py, translated statement by statement: the Python
function starts from score = 0 and runs six sequential if/elif/else
blocks, each adjusting the accumulator; the sequential updates become
shadowing let bindings. -/
def score_kit (kit : DrumKit) (prefs : Prefs) : Int :=
  let score : Int := 0
  -- Type
  let score := if prefs.kit_type = kit.kit_type then score + 30 else score - 10
  -- Budget overlap (hard-ish constraint)
  let budget := prefs.budget
  let score :=
    if kit.price_min ≤ budget ∧ budget ≤ kit.price_max then score + 25
    else if budget < kit.price_min then score - 20
    else score - 5
  -- Space / noise reality
  let score :=
    if prefs.space = kit.space then score + 20
    else if prefs.space = "apartment" ∧ kit.kit_type = "acoustic" then score - 40
    else score + 5
  -- Skill match
  let score :=
    if prefs.skill = kit.skill then score + 10
    else if prefs.skill = "beginner" ∧ kit.skill ≠ "advanced" then score + 6
    else score + 0
  -- Genre match
  let score := if prefs.genre ∈ kit.genres then score + 15 else score + 2
  -- Practice priority (quiet)
  let score :=
    if prefs.quiet_priority = true ∧ kit.kit_type = "electronic" then score + 10 else score
  score

/-- The category factor group of score_kit (the first if/else block). -/
def typeScore (kit : DrumKit) (prefs : Prefs) : Int :=
  if prefs.kit_type = kit.kit_type then 30 else -10

/-- The budget factor group of score_kit (the second if/elif/else block). -/
def budgetScore (kit : DrumKit) (prefs : Prefs) : Int :=
  if kit.price_min ≤ prefs.budget ∧ prefs.budget ≤ kit.price_max then 25
  else if prefs.budget < kit.price_min then -20
  else -5

/-- The placement factor group of score_kit (the third if/elif/else block). -/
def spaceScore (kit : DrumKit) (prefs : Prefs) : Int :=
  if prefs.space = kit.space then 20
  else if prefs.space = "apartment" ∧ kit.kit_type = "acoustic" then -40
  else 5

/-- The skill factor group of score_kit (the fourth if/elif/else block). -/
def skillScore (kit : DrumKit) (prefs : Prefs) : Int :=
  if prefs.skill = kit.skill then 10
  else if prefs.skill = "beginner" ∧ kit.skill ≠ "advanced" then 6
  else 0

/-- The genre factor group of score_kit (the fifth if/else block). -/
def genreScore (kit : DrumKit) (prefs : Prefs) : Int :=
  if prefs.genre ∈ kit.genres then 15 else 2

/-- The quiet-priority factor group of score_kit (the final if block). -/
def quietScore (kit : DrumKit) (prefs : Prefs) : Int :=
  if prefs.quiet_priority = true ∧ kit.kit_type = "electronic" then 10 else 0

/-- The descending-score preorder that sorted(KITS, key=score, reverse=True)
sorts by: a comes no later than b when a scores at least as high as b. -/
def kitGE (prefs : Prefs) (a b : DrumKit) : Prop :=
  score_kit b prefs ≤ score_kit a prefs

instance (prefs : Prefs) : DecidableRel (kitGE prefs) := fun a b =>
  inferInstanceAs (Decidable (score_kit b prefs ≤ score_kit a prefs))

/-- rank(catalog, prefs, k): stably sort the catalog by descending score
and take the first k.  Python's sorted is a stable sort; any stable sort
over the same total preorder produces the same list, so it is embedded
as insertion sort over kitGE. -/
def rank_kits (catalog : List DrumKit) (prefs : Prefs) (k : Nat) : List DrumKit :=
  (catalog.insertionSort (kitGE prefs)).take k

/-- pick_top_kits of kits.py: rank over the fixed catalog KITS, with
k defaulting to 3. -/
def pick_top_kits (prefs : Prefs) (k : Nat := 3) : List DrumKit :=
  rank_kits KITS prefs k

set_option maxHeartbeats 1000000 in
/-- Shared helper: score_kit is the sum of its six factor groups. -/
theorem score_kit_eq_factors (kit : DrumKit) (prefs : Prefs) :
    score_kit kit prefs =
      typeScore kit prefs + budgetScore kit prefs + spaceScore kit prefs +
        skillScore kit prefs + genreScore kit prefs + quietScore kit prefs := by
  unfold score_kit typeScore budgetScore spaceScore skillScore genreScore quietScore
  split_ifs <;> dsimp only <;> omega

/-- Shared helper: stability of the ranking sort, stated as: filtering the
sorted catalog to any one score value yields exactly the catalog filtered
to that value, in catalog order. -/
theorem insertionSort_filter_score (catalog : List DrumKit) (prefs : Prefs) (v : Int) :
    (catalog.insertionSort (kitGE prefs)).filter (fun x => decide (score_kit x prefs = v)) =
      catalog.filter (fun x => decide (score_kit x prefs = v)) := by
  have hmem : ∀ a ∈ catalog.filter (fun x => decide (score_kit x prefs = v)),
      score_kit a prefs = v := by
    intro a ha
    simpa using List.of_mem_filter ha
  have hpair : (catalog.filter (fun x => decide (score_kit x prefs = v))).Pairwise
      (kitGE prefs) := by
    apply List.pairwise_of_forall_mem_list
    intro a ha b hb
    unfold kitGE
    rw [hmem a ha, hmem b hb]
  have hsub : List.Sublist (catalog.filter (fun x => decide (score_kit x prefs = v)))
      (catalog.insertionSort (kitGE prefs)) :=
    List.sublist_insertionSort hpair (List.filter_sublist _)
  have hidem : (catalog.filter (fun x => decide (score_kit x prefs = v))).filter
      (fun x => decide (score_kit x prefs = v)) =
      catalog.filter (fun x => decide (score_kit x prefs = v)) :=
    List.filter_eq_self.mpr (by intro a ha; simpa using hmem a ha)
  have hsub2 : List.Sublist (catalog.filter (fun x => decide (score_kit x prefs = v)))
      ((catalog.insertionSort (kitGE prefs)).filter (fun x => decide (score_kit x prefs = v))) := by
    have h := hsub.filter (fun x => decide (score_kit x prefs = v))
    rwa [hidem] at h
  have hperm : List.Perm
      ((catalog.insertionSort (kitGE prefs)).filter (fun x => decide (score_kit x prefs = v)))
      (catalog.filter (fun x => decide (score_kit x prefs = v))) :=
    (List.perm_insertionSort (kitGE prefs) catalog).filter _
  exact (hsub2.eq_of_length hperm.length_eq.symm).symm

/-- C1: score_kit is the sum of exactly six independent additive factor
groups, each contributing exactly one branch value: category +30 or -10,
budget +25 or -20 or -5, placement +20 or -40 or +5, skill +10 or +6 or +0,
genre +15 or +2, quiet +10 or +0. -/
theorem score_kit_sum_of_factor_groups (kit : DrumKit) (prefs : Prefs) :
    score_kit kit prefs =
      (if prefs.kit_type = kit.kit_type then 30 else -10) +
      (if kit.price_min ≤ prefs.budget ∧ prefs.budget ≤ kit.price_max then 25
        else if prefs.budget < kit.price_min then -20 else -5) +
      (if prefs.space = kit.space then 20
        else if prefs.space = "apartment" ∧ kit.kit_type = "acoustic" then -40 else 5) +
      (if prefs.skill = kit.skill then 10
        else if prefs.skill = "beginner" ∧ kit.skill ≠ "advanced" then 6 else 0) +
      (if prefs.genre ∈ kit.genres then 15 else 2) +
      (if prefs.quiet_priority = true ∧ kit.kit_type = "electronic" then 10 else 0) := by
  rw [score_kit_eq_factors]
  rfl

/-- C2: rank_kits returns exactly min(k, catalog length) items, ordered by
descending score_kit value, equal-score items keeping their original
catalog order (the filter of the result at any score value is a sublist of
the catalog filtered at that value); with the default k = 3, pick_top_kits
returns at most 3 items. -/
theorem rank_kits_length_sorted_stable (catalog : List DrumKit) (prefs : Prefs) (k : Nat) :
    (rank_kits catalog prefs k).length = min k catalog.length ∧
    (rank_kits catalog prefs k).Pairwise
      (fun a b => score_kit b prefs ≤ score_kit a prefs) ∧
    (∀ v : Int,
      List.Sublist
        ((rank_kits catalog prefs k).filter (fun x => decide (score_kit x prefs = v)))
        (catalog.filter (fun x => decide (score_kit x prefs = v)))) ∧
    (pick_top_kits prefs).length ≤ 3 := by
  refine ⟨?_, ?_, ?_, ?_⟩
  · simp [rank_kits, List.length_take, List.length_insertionSort]
  · haveI : IsTotal DrumKit (kitGE prefs) := ⟨fun a b => le_total _ _⟩
    haveI : IsTrans DrumKit (kitGE prefs) := ⟨fun _ _ _ h1 h2 => le_trans h2 h1⟩
    have hs : (catalog.insertionSort (kitGE prefs)).Pairwise (kitGE prefs) :=
      List.sorted_insertionSort (kitGE prefs) catalog
    exact List.Pairwise.sublist (List.take_sublist k _) hs
  · intro v
    have h := (List.take_sublist k (catalog.insertionSort (kitGE prefs))).filter
      (fun x => decide (score_kit x prefs = v))
    rw [insertionSort_filter_score catalog prefs v] at h
    exact h
  · simp [pick_top_kits, rank_kits, List.length_take]

/-- C7: ranking an empty catalog with k = 3 yields the empty list, for
every preferences record. -/
theorem rank_kits_empty_catalog (prefs : Prefs) : rank_kits [] prefs 3 = [] := rfl

set_option maxHeartbeats 1000000 in
/-- C9: score_kit always lies in the closed interval [-68, 110]. -/
theorem score_kit_bounds (kit : DrumKit) (prefs : Prefs) :
    -68 ≤ score_kit kit prefs ∧ score_kit kit prefs ≤ 110 := by
  rw [score_kit_eq_factors]
  unfold typeScore budgetScore spaceScore skillScore genreScore quietScore
  split_ifs <;> omega

/-- C10: every item returned by pick_top_kits is an element of KITS, the
returned items are pairwise distinct, and each item occurs in the result
at most as often as in KITS. -/
theorem pick_top_kits_subset_nodup_count (prefs : Prefs) (k : Nat) :
    (∀ x ∈ pick_top_kits prefs k, x ∈ KITS) ∧
    (pick_top_kits prefs k).Nodup ∧
    (∀ x : DrumKit, (pick_top_kits prefs k).count x ≤ KITS.count x) := by
  have hperm : List.Perm (KITS.insertionSort (kitGE prefs)) KITS :=
    List.perm_insertionSort (kitGE prefs) KITS
  refine ⟨?_, ?_, ?_⟩
  · intro x hx
    exact hperm.subset ((List.take_sublist k _).subset hx)
  · have hn : KITS.Nodup := by decide
    exact List.Nodup.sublist (List.take_sublist k _) (hperm.nodup_iff.mpr hn)
  · intro x
    have h1 := (List.take_sublist k (KITS.insertionSort (kitGE prefs))).count_le x
    calc (pick_top_kits prefs k).count x ≤ (KITS.insertionSort (kitGE prefs)).count x := h1
      _ = KITS.count x := hperm.count_eq x

/-- Shared helper: the category factor on a category match. -/
theorem typeScore_eq_of_match (kit : DrumKit) (prefs : Prefs)
    (h : prefs.kit_type = kit.kit_type) : typeScore kit prefs = 30 := by
  unfold typeScore
  rw [if_pos h]

/-- Shared helper: the category factor on a category mismatch. -/
theorem typeScore_eq_of_mismatch (kit : DrumKit) (prefs : Prefs)
    (h : prefs.kit_type ≠ kit.kit_type) : typeScore kit prefs = -10 := by
  unfold typeScore
  rw [if_neg h]

/-- Shared helper: with quiet_priority off, the quiet factor is 0. -/
theorem quietScore_of_not_quiet (kit : DrumKit) (prefs : Prefs)
    (h : prefs.quiet_priority = false) : quietScore kit prefs = 0 := by
  unfold quietScore
  rw [h]
  simp

/-- Shared helper: when the preferred space is not apartment, the placement
factor ignores the item's category. -/
theorem spaceScore_kit_type_irrel (A : DrumKit) (t : String) (prefs : Prefs)
    (h : prefs.space ≠ "apartment") :
    spaceScore { A with kit_type := t } prefs = spaceScore A prefs := by
  unfold spaceScore
  dsimp only
  rw [if_neg (fun hc : prefs.space = "apartment" ∧ t = "acoustic" => h hc.1),
    if_neg (fun hc : prefs.space = "apartment" ∧ A.kit_type = "acoustic" => h hc.1)]

/-- Item used in the C3 counterexample: an acoustic kit placed in a house. -/
def kitC3 : DrumKit :=
  { id := "cx3", name := "CX3", kit_type := "acoustic", price_min := 700,
    price_max := 1100, space := "house", genres := ["rock"], skill := "beginner",
    notes := "" }

/-- Preferences used in the C3 counterexample: acoustic preferred, apartment
placement, quiet priority on. -/
def prefsC3 : Prefs :=
  { kit_type := "acoustic", budget := 800, space := "apartment",
    skill := "beginner", genre := "rock", quiet_priority := true }

/-- C3 counterexample: kitC3 and its copy with only the category changed,
under preferences matching kitC3's category, score 40 and 55: the gap is
-15, not at least 40, because the apartment placement conflict (-40 versus
+5) and the quiet bonus (+0 versus +10) both act against the acoustic item. -/
theorem score_gap_counterexample :
    prefsC3.kit_type = kitC3.kit_type ∧
    ({ kitC3 with kit_type := "electronic" } : DrumKit).kit_type ≠ kitC3.kit_type ∧
    score_kit kitC3 prefsC3 = 40 ∧
    score_kit { kitC3 with kit_type := "electronic" } prefsC3 = 55 ∧
    ¬ (40 ≤ score_kit kitC3 prefsC3 - score_kit { kitC3 with kit_type := "electronic" } prefsC3) := by
  decide

/-- C3 (amended): for items identical except the category field, with the
preferences matching the first item's category, the score gap is at least
40 provided that quiet_priority is off and the preferred space is not
apartment (the two factor groups that also read the item's category). -/
theorem score_gap_amended (A : DrumKit) (t : String) (prefs : Prefs)
    (h1 : prefs.kit_type = A.kit_type) (h2 : t ≠ A.kit_type)
    (h3 : prefs.quiet_priority = false) (h4 : prefs.space ≠ "apartment") :
    40 ≤ score_kit A prefs - score_kit { A with kit_type := t } prefs := by
  have eA := score_kit_eq_factors A prefs
  have eB := score_kit_eq_factors { A with kit_type := t } prefs
  have t1 : typeScore A prefs = 30 := typeScore_eq_of_match A prefs h1
  have t2 : typeScore { A with kit_type := t } prefs = -10 :=
    typeScore_eq_of_mismatch _ prefs (fun he => h2 ((show prefs.kit_type = t from he) ▸ h1))
  have s1 : spaceScore { A with kit_type := t } prefs = spaceScore A prefs :=
    spaceScore_kit_type_irrel A t prefs h4
  have q1 : quietScore A prefs = 0 := quietScore_of_not_quiet A prefs h3
  have q2 : quietScore { A with kit_type := t } prefs = 0 :=
    quietScore_of_not_quiet _ prefs h3
  have b1 : budgetScore { A with kit_type := t } prefs = budgetScore A prefs := rfl
  have k1 : skillScore { A with kit_type := t } prefs = skillScore A prefs := rfl
  have g1 : genreScore { A with kit_type := t } prefs = genreScore A prefs := rfl
  omega

/-- Witness for the amended C3 at a concrete input. -/
theorem score_gap_amended_witness :
    40 ≤ score_kit
        ⟨"w3", "W3", "acoustic", 700, 1100, "house", ["rock"], "beginner", ""⟩
        ⟨"acoustic", 800, "house", "beginner", "rock", false⟩ -
      score_kit
        { (⟨"w3", "W3", "acoustic", 700, 1100, "house", ["rock"], "beginner", ""⟩ : DrumKit)
          with kit_type := "electronic" }
        ⟨"acoustic", 800, "house", "beginner", "rock", false⟩ :=
  score_gap_amended
    ⟨"w3", "W3", "acoustic", 700, 1100, "house", ["rock"], "beginner", ""⟩
    "electronic"
    ⟨"acoustic", 800, "house", "beginner", "rock", false⟩
    rfl (by decide) rfl (by decide)

/-- Shared helper: turning an item's category to acoustic can only lower
the placement factor, provided the item was not acoustic already. -/
theorem spaceScore_to_acoustic_le (A : DrumKit) (prefs : Prefs)
    (h : A.kit_type ≠ "acoustic") :
    spaceScore { A with kit_type := "acoustic" } prefs ≤ spaceScore A prefs := by
  unfold spaceScore
  dsimp only
  by_cases hm : prefs.space = A.space
  · rw [if_pos hm, if_pos hm]
  · rw [if_neg hm, if_neg hm,
      if_neg (fun hc : prefs.space = "apartment" ∧ A.kit_type = "acoustic" => h hc.2)]
    split_ifs <;> omega

/-- Item used in the C4 counterexample: an electronic kit in a house. -/
def kitC4 : DrumKit :=
  { id := "cx4", name := "CX4", kit_type := "electronic", price_min := 700,
    price_max := 1100, space := "house", genres := ["rock"], skill := "beginner",
    notes := "" }

/-- Preferences used in the C4 counterexample: acoustic preferred, quiet
priority on. -/
def prefsC4 : Prefs :=
  { kit_type := "acoustic", budget := 800, space := "house",
    skill := "beginner", genre := "rock", quiet_priority := true }

/-- C4 counterexample: with quiet_priority on but the preferred category
acoustic, the electronic item scores 70 and the otherwise-identical
acoustic item 100: the electronic item is 30 points lower, not at least
10 higher, because the category match (+30 versus -10) outweighs the
quiet bonus. -/
theorem quiet_bonus_counterexample :
    prefsC4.quiet_priority = true ∧
    score_kit kitC4 prefsC4 = 70 ∧
    score_kit { kitC4 with kit_type := "acoustic" } prefsC4 = 100 ∧
    ¬ (score_kit { kitC4 with kit_type := "acoustic" } prefsC4 + 10 ≤ score_kit kitC4 prefsC4) := by
  decide

/-- C4 (amended): with quiet_priority on, an electronic item scores at
least 10 points above the otherwise-identical acoustic item, provided the
preferred category is not acoustic (otherwise the category factor group
swings -40 against the electronic item). -/
theorem quiet_bonus_amended (A : DrumKit) (prefs : Prefs)
    (hA : A.kit_type = "electronic") (hq : prefs.quiet_priority = true)
    (hp : prefs.kit_type ≠ "acoustic") :
    score_kit { A with kit_type := "acoustic" } prefs + 10 ≤ score_kit A prefs := by
  have eA := score_kit_eq_factors A prefs
  have eB := score_kit_eq_factors { A with kit_type := "acoustic" } prefs
  have t2 : typeScore { A with kit_type := "acoustic" } prefs = -10 :=
    typeScore_eq_of_mismatch _ prefs hp
  have t1 : -10 ≤ typeScore A prefs := by
    unfold typeScore
    split_ifs <;> omega
  have hAne : A.kit_type ≠ "acoustic" := by
    rw [hA]
    decide
  have s1 : spaceScore { A with kit_type := "acoustic" } prefs ≤ spaceScore A prefs :=
    spaceScore_to_acoustic_le A prefs hAne
  have q1 : quietScore A prefs = 10 := by
    unfold quietScore
    rw [if_pos ⟨hq, hA⟩]
  have q2 : quietScore { A with kit_type := "acoustic" } prefs = 0 := by
    unfold quietScore
    dsimp only
    rw [if_neg (fun hc => absurd hc.2 (by decide))]
  have b1 : budgetScore { A with kit_type := "acoustic" } prefs = budgetScore A prefs := rfl
  have k1 : skillScore { A with kit_type := "acoustic" } prefs = skillScore A prefs := rfl
  have g1 : genreScore { A with kit_type := "acoustic" } prefs = genreScore A prefs := rfl
  omega

/-- Witness for the amended C4 at a concrete input. -/
theorem quiet_bonus_amended_witness :
    score_kit
        { (⟨"w4", "W4", "electronic", 700, 1100, "house", ["rock"], "beginner", ""⟩ : DrumKit)
          with kit_type := "acoustic" }
        ⟨"electronic", 800, "apartment", "beginner", "rock", true⟩ + 10 ≤
      score_kit
        ⟨"w4", "W4", "electronic", 700, 1100, "house", ["rock"], "beginner", ""⟩
        ⟨"electronic", 800, "apartment", "beginner", "rock", true⟩ :=
  quiet_bonus_amended
    ⟨"w4", "W4", "electronic", 700, 1100, "house", ["rock"], "beginner", ""⟩
    ⟨"electronic", 800, "apartment", "beginner", "rock", true⟩
    rfl rfl (by decide)

/-- C5: when the budget lies in the item's price range, the budget factor
group contributes exactly +25: score_kit equals the sum with the budget
term replaced by the literal 25, and replacing the budget by any other
in-range value leaves the score unchanged. -/
theorem budget_in_range_score (kit : DrumKit) (prefs : Prefs) (b2 : Int)
    (h1 : kit.price_min ≤ prefs.budget) (h2 : prefs.budget ≤ kit.price_max)
    (h3 : kit.price_min ≤ b2) (h4 : b2 ≤ kit.price_max) :
    budgetScore kit prefs = 25 ∧
    score_kit kit prefs = typeScore kit prefs + 25 + spaceScore kit prefs +
      skillScore kit prefs + genreScore kit prefs + quietScore kit prefs ∧
    score_kit kit { prefs with budget := b2 } = score_kit kit prefs := by
  have hb : budgetScore kit prefs = 25 := by
    unfold budgetScore
    rw [if_pos ⟨h1, h2⟩]
  have hb2 : budgetScore kit { prefs with budget := b2 } = 25 := by
    unfold budgetScore
    dsimp only
    rw [if_pos ⟨h3, h4⟩]
  refine ⟨hb, ?_, ?_⟩
  · rw [score_kit_eq_factors, hb]
  · rw [score_kit_eq_factors, score_kit_eq_factors, hb, hb2]
    rfl

/-- Witness for C5 at a concrete input. -/
theorem budget_in_range_score_witness :
    budgetScore ⟨"w5", "W5", "acoustic", 700, 1100, "house", ["rock"], "beginner", ""⟩
        ⟨"acoustic", 800, "house", "beginner", "rock", false⟩ = 25 ∧
    score_kit ⟨"w5", "W5", "acoustic", 700, 1100, "house", ["rock"], "beginner", ""⟩
        ⟨"acoustic", 800, "house", "beginner", "rock", false⟩ =
      typeScore ⟨"w5", "W5", "acoustic", 700, 1100, "house", ["rock"], "beginner", ""⟩
          ⟨"acoustic", 800, "house", "beginner", "rock", false⟩ + 25 +
        spaceScore ⟨"w5", "W5", "acoustic", 700, 1100, "house", ["rock"], "beginner", ""⟩
          ⟨"acoustic", 800, "house", "beginner", "rock", false⟩ +
        skillScore ⟨"w5", "W5", "acoustic", 700, 1100, "house", ["rock"], "beginner", ""⟩
          ⟨"acoustic", 800, "house", "beginner", "rock", false⟩ +
        genreScore ⟨"w5", "W5", "acoustic", 700, 1100, "house", ["rock"], "beginner", ""⟩
          ⟨"acoustic", 800, "house", "beginner", "rock", false⟩ +
        quietScore ⟨"w5", "W5", "acoustic", 700, 1100, "house", ["rock"], "beginner", ""⟩
          ⟨"acoustic", 800, "house", "beginner", "rock", false⟩ ∧
    score_kit ⟨"w5", "W5", "acoustic", 700, 1100, "house", ["rock"], "beginner", ""⟩
        { (⟨"acoustic", 800, "house", "beginner", "rock", false⟩ : Prefs) with budget := 900 } =
      score_kit ⟨"w5", "W5", "acoustic", 700, 1100, "house", ["rock"], "beginner", ""⟩
        ⟨"acoustic", 800, "house", "beginner", "rock", false⟩ :=
  budget_in_range_score
    ⟨"w5", "W5", "acoustic", 700, 1100, "house", ["rock"], "beginner", ""⟩
    ⟨"acoustic", 800, "house", "beginner", "rock", false⟩
    900 (by decide) (by decide) (by decide) (by decide)

/-- C6: score_kit is total on arbitrary strings, and preference values
outside the documented enumerations degrade to the mismatch deltas:
unknown category -10, unknown placement +5, unknown skill +0, unknown
genre +2; the score is still the sum of the six factor groups. -/
theorem unknown_values_degrade (kit : DrumKit) (prefs : Prefs)
    (hk : kit.kit_type = "acoustic" ∨ kit.kit_type = "electronic")
    (hp1 : prefs.kit_type ≠ "acoustic") (hp2 : prefs.kit_type ≠ "electronic")
    (hs : kit.space = "apartment" ∨ kit.space = "house" ∨ kit.space = "studio")
    (hq1 : prefs.space ≠ "apartment") (hq2 : prefs.space ≠ "house")
    (hq3 : prefs.space ≠ "studio")
    (hl : kit.skill = "beginner" ∨ kit.skill = "intermediate" ∨ kit.skill = "advanced")
    (hm1 : prefs.skill ≠ "beginner") (hm2 : prefs.skill ≠ "intermediate")
    (hm3 : prefs.skill ≠ "advanced")
    (hg : prefs.genre ∉ kit.genres) :
    typeScore kit prefs = -10 ∧ spaceScore kit prefs = 5 ∧
    skillScore kit prefs = 0 ∧ genreScore kit prefs = 2 ∧
    score_kit kit prefs =
      -10 + budgetScore kit prefs + 5 + 0 + 2 + quietScore kit prefs := by
  have ht : typeScore kit prefs = -10 := by
    apply typeScore_eq_of_mismatch
    intro he
    rcases hk with h | h <;> rw [h] at he
    · exact hp1 he
    · exact hp2 he
  have hsp : spaceScore kit prefs = 5 := by
    unfold spaceScore
    rw [if_neg, if_neg (fun hc : prefs.space = "apartment" ∧ _ => hq1 hc.1)]
    intro he
    rcases hs with h | h | h <;> rw [h] at he
    · exact hq1 he
    · exact hq2 he
    · exact hq3 he
  have hsk : skillScore kit prefs = 0 := by
    unfold skillScore
    rw [if_neg, if_neg (fun hc : prefs.skill = "beginner" ∧ _ => hm1 hc.1)]
    intro he
    rcases hl with h | h | h <;> rw [h] at he
    · exact hm1 he
    · exact hm2 he
    · exact hm3 he
  have hge : genreScore kit prefs = 2 := by
    unfold genreScore
    rw [if_neg hg]
  refine ⟨ht, hsp, hsk, hge, ?_⟩
  rw [score_kit_eq_factors, ht, hsp, hsk, hge]

/-- Witness for C6 at a concrete input with out-of-enumeration strings. -/
theorem unknown_values_degrade_witness :
    typeScore ⟨"w6", "W6", "electronic", 300, 450, "apartment", ["rock"], "beginner", ""⟩
        ⟨"mystery", 350, "garage", "expert", "polka", true⟩ = -10 ∧
    spaceScore ⟨"w6", "W6", "electronic", 300, 450, "apartment", ["rock"], "beginner", ""⟩
        ⟨"mystery", 350, "garage", "expert", "polka", true⟩ = 5 ∧
    skillScore ⟨"w6", "W6", "electronic", 300, 450, "apartment", ["rock"], "beginner", ""⟩
        ⟨"mystery", 350, "garage", "expert", "polka", true⟩ = 0 ∧
    genreScore ⟨"w6", "W6", "electronic", 300, 450, "apartment", ["rock"], "beginner", ""⟩
        ⟨"mystery", 350, "garage", "expert", "polka", true⟩ = 2 ∧
    score_kit ⟨"w6", "W6", "electronic", 300, 450, "apartment", ["rock"], "beginner", ""⟩
        ⟨"mystery", 350, "garage", "expert", "polka", true⟩ =
      -10 + budgetScore ⟨"w6", "W6", "electronic", 300, 450, "apartment", ["rock"], "beginner", ""⟩
          ⟨"mystery", 350, "garage", "expert", "polka", true⟩ + 5 + 0 + 2 +
        quietScore ⟨"w6", "W6", "electronic", 300, 450, "apartment", ["rock"], "beginner", ""⟩
          ⟨"mystery", 350, "garage", "expert", "polka", true⟩ :=
  unknown_values_degrade
    ⟨"w6", "W6", "electronic", 300, 450, "apartment", ["rock"], "beginner", ""⟩
    ⟨"mystery", 350, "garage", "expert", "polka", true⟩
    (by decide) (by decide) (by decide) (by decide) (by decide) (by decide)
    (by decide) (by decide) (by decide) (by decide) (by decide) (by decide)

/-- Electronic item of the C8 concrete scenario: priced 1700-2300, skill
intermediate, genres rock, placed in an apartment so its placement
matches the preferences. -/
def kitC8e : DrumKit :=
  { id := "c8-electronic", name := "C8 Electronic", kit_type := "electronic",
    price_min := 1700, price_max := 2300, space := "apartment",
    genres := ["rock"], skill := "intermediate", notes := "" }

/-- Acoustic item of the C8 concrete scenario: priced 700-1100, skill
beginner, genres rock. -/
def kitC8a : DrumKit :=
  { id := "c8-acoustic", name := "C8 Acoustic", kit_type := "acoustic",
    price_min := 700, price_max := 1100, space := "house",
    genres := ["rock"], skill := "beginner", notes := "" }

/-- Preferences of the C8 concrete scenario. -/
def prefsC8 : Prefs :=
  { kit_type := "electronic", budget := 2000, space := "apartment",
    skill := "intermediate", genre := "rock", quiet_priority := true }

/-- C8: in the concrete two-item scenario the electronic item scores 110
(all six factor groups at their match values) and rank places it strictly
above the acoustic item. -/
theorem concrete_scenario_ranking :
    score_kit kitC8e prefsC8 = 110 ∧
    score_kit kitC8a prefsC8 < score_kit kitC8e prefsC8 ∧
    rank_kits [kitC8e, kitC8a] prefsC8 3 = [kitC8e, kitC8a] := by
  decide
